import Mathlib

/-!
Verification development for the Space-Bus repository.

Two layers are embedded shallowly:
* `Tiny485` — the bit-level transceiver of `src/lib/tiny485/tiny485.c`
  (ATTiny85 hardware side: USI shift register, bit timer, pin-change
  interrupt, line-driver enable, byte-stuffing escape decode).
* `Sbp` — the frame protocol of `src/scratch/tinyhack/sbp.c`
  (header/payload/checksum state machine, addressing, send lifecycle).

Hardware registers and interrupt masks are modelled as boolean fields of an
explicit state record; each interrupt handler becomes a function from the
state (plus the byte sitting in the shift register) to the successor state
together with the list of upward notifications it performs.  Machine bytes
are `Nat` with explicit truncation where the C types would wrap.
-/

namespace Tiny485

/-- Constant `T485_SYNC_BYTE` — the synchronisation byte (tiny485.c line 38). -/
def T485_SYNC_BYTE : Nat := 0xFF

/-- Constant `T485_ESCAPE_BYTE` — escape byte for syncs in messages (line 39). -/
def T485_ESCAPE_BYTE : Nat := 0x55

/-- Constant `T485_ESCAPED_SYNC` — a synchronisation byte when escaped (line 41). -/
def T485_ESCAPED_SYNC : Nat := 0x00

/-- Constant `T485_ESCAPED_ESCAPE` — an escape byte when escaped (line 42). -/
def T485_ESCAPED_ESCAPE : Nat := 0x01

/-- Constant `T485_FLAG_ESCAPE` — bit mask of the escape-pending flag (line 45). -/
def T485_FLAG_ESCAPE : Nat := 0x01

/-- The `t485_data.state` enumeration (tiny485.c lines 48–57). -/
inductive T485St where
  | INIT1 | INIT2 | IDLE | RECV | XMIT1 | XMIT2
deriving DecidableEq, Repr

/-- The transceiver's mutable state: the `t485_data` struct (lines 47–61)
together with the hardware bits the code toggles — USI data register,
USI/timer on-off, pin-change-interrupt mask bit, line-driver enable. -/
structure T485State where
  state    : T485St
  flags    : Nat
  buf      : Nat
  usidr    : Nat
  usiOn    : Bool
  tim0On   : Bool
  pcint0On : Bool
  den      : Bool
deriving DecidableEq, Repr

/-- Upward notifications of the transceiver (`sync_received`,
`byte_received`, `byte_sent` calls in tiny485.c). -/
inductive T485Event where
  | syncReceived
  | byteReceived (b : Nat)
  | byteSent
deriving DecidableEq, Repr

/-- Function `begin_transmission` (tiny485.c lines 107–110): assert the line-driver
enable and turn the pin-change interrupt off. -/
def begin_transmission (s : T485State) : T485State :=
  { s with den := true, pcint0On := false }

/-- Function `end_transmission` (tiny485.c lines 116–119): return the bus to
high-impedance mode and turn the pin-change interrupt back on. -/
def end_transmission (s : T485State) : T485State :=
  { s with den := false, pcint0On := true }

/-- Function `send_byte` (tiny485.c lines 126–135): load the first half of the byte
into the USI data register, stage the second half in `buf`, enter `XMIT1`,
turn the USI and the bit timer on. -/
def send_byte (b : Nat) (s : T485State) : T485State :=
  { s with usidr := (b >>> 1) % 256,
           buf   := ((b <<< 4) ||| 0x0F) % 256,
           state := T485St.XMIT1,
           usiOn := true,
           tim0On := true }

/-- Function `bit_reverse` (tiny485.c lines 64–71): reverse the bits of a byte for
host/wire bit-order switching, as the C loop over bit positions 0..7. -/
def bit_reverse (b : Nat) : Nat :=
  (List.range 8).foldl
    (fun buf i => if b &&& (1 <<< i) ≠ 0 then buf ||| (1 <<< (7 - i)) else buf) 0

/-- Handler `ISR(USI_OVF_vect)` (tiny485.c lines 227–300): handle a USI overflow —
a whole byte has been shifted out or in.  `usibr` is the content of the USI
buffer register at interrupt time.  Returns the successor state and the
upward notifications made, in order. -/
def t485_usi_ovf (s : T485State) (usibr : Nat) : T485State × List T485Event :=
  match s.state with
  | T485St.XMIT1 =>
      ({ s with usidr := s.buf, state := T485St.XMIT2 }, [])
  | T485St.XMIT2 =>
      ({ s with usiOn := false, tim0On := false, state := T485St.IDLE },
       [T485Event.byteSent])
  | T485St.RECV =>
      let s1 := { s with usiOn := false, tim0On := false,
                         state := T485St.IDLE, buf := usibr,
                         pcint0On := false }
      if usibr = T485_SYNC_BYTE then
        (s1, [T485Event.syncReceived])
      else if usibr = T485_ESCAPE_BYTE then
        ({ s1 with flags := s1.flags ||| T485_FLAG_ESCAPE }, [])
      else if s1.flags &&& T485_FLAG_ESCAPE ≠ 0 then
        if usibr = T485_ESCAPED_SYNC then
          (s1, [T485Event.byteReceived T485_SYNC_BYTE])
        else if usibr = T485_ESCAPED_ESCAPE then
          (s1, [T485Event.byteReceived T485_ESCAPE_BYTE])
        else
          (s1, [T485Event.byteReceived usibr])
      else
        (s1, [T485Event.byteReceived usibr])
  | _ => (s, [])

/-- Modelled from the spec: the transmit-side escape encoding is absent from
src — `send_byte` pushes a raw byte and the escaping responsibility named in
the tiny485.c file header has no transmit-side implementation in the
repository.  Per §4.1 of the spec: a byte equal to the sync sentinel or the
escape sentinel is emitted as the escape sentinel followed by the fixed
substitute code (`EscapedSync` resp. `EscapedEscape`); any other byte is
emitted unchanged. -/
def t485_encode (b : Nat) : List Nat :=
  if b = T485_SYNC_BYTE then [T485_ESCAPE_BYTE, T485_ESCAPED_SYNC]
  else if b = T485_ESCAPE_BYTE then [T485_ESCAPE_BYTE, T485_ESCAPED_ESCAPE]
  else [b]

/-- An idle transceiver state with no escape pending, as left by
`tiny485_init` without `REQUIRE_SYNC` (tiny485.c lines 137–162). -/
def t485_start : T485State :=
  { state := T485St.IDLE, flags := 0, buf := 0, usidr := 0,
    usiOn := false, tim0On := false, pcint0On := true, den := false }

/-- Feed a list of wire bytes through the receive path: for each byte the
start-bit edge puts the transceiver into `RECV` (tiny485.c lines 176–185)
and the USI overflow handler processes the byte.  Collects all upward
notifications in order. -/
def t485_recv_run (s : T485State) : List Nat → T485State × List T485Event
  | [] => (s, [])
  | b :: rest =>
      let r := t485_usi_ovf { s with state := T485St.RECV } b
      let r2 := t485_recv_run r.1 rest
      (r2.1, r.2 ++ r2.2)

end Tiny485

namespace Sbp

/-- Constant `SBP_HEADER_LENGTH` (sbp.c line 23). -/
def SBP_HEADER_LENGTH : Nat := 6

/-- Constant `SBP_CHECKSUM_LENGTH` (sbp.c line 24). -/
def SBP_CHECKSUM_LENGTH : Nat := 1

/-- Constant `SBP_BYTE_SYNC` (sbp.c line 29). -/
def SBP_BYTE_SYNC : Nat := 0b10101010

/-- Constant `SBP_BYTE_ESCAPE` (sbp.c line 30). -/
def SBP_BYTE_ESCAPE : Nat := 0b01010101

/-- The `sbp_state_t` enumeration (sbp.c lines 32–50). -/
inductive SbpSt where
  | INIT | IDLE
  | XMIT_HEADER | XMIT_PAYLOAD | XMIT_CHECKSUM
  | RECV_HEADER | RECV_PAYLOAD | RECV_CHECKSUM
  | RECV_IGNORE
deriving DecidableEq, Repr

/-- The `sbp_frame_t` frame (fields as used by sbp.c: `sync`, `type`,
`length`/`len`, `dst`, `src`, `payload`/`msg`, `checksum`; the declaring
header is not in the repository, the field set is taken from the uses).
The payload pointer is modelled as the pointed-to byte list. -/
structure SbpFrame where
  sync     : Nat
  type     : Nat
  length   : Nat
  dst      : Nat
  src      : Nat
  payload  : List Nat
  checksum : Nat
deriving DecidableEq, Repr

/-- The `_data` struct of sbp.c (lines 54–62). -/
structure SbpData where
  state   : SbpSt
  index   : Nat
  size    : Nat
  flags   : Nat
  address : Nat
  frame   : SbpFrame
deriving DecidableEq, Repr

/-- Function `sbp_idle` (sbp.c lines 79–81). -/
def sbp_idle (d : SbpData) : Bool :=
  d.state = SbpSt.IDLE

/-- Function `sbp_send` (sbp.c lines 84–103): accepted only in `SBP_IDLE`; populates
the in-flight frame, resets the index, enters `SBP_XMIT_HEADER`; otherwise
does nothing.  `length` is a `uint16_t`, hence the 2^16 truncation. -/
def sbp_send (dst ty length : Nat) (msg : List Nat) (d : SbpData) : SbpData :=
  if d.state = SbpSt.IDLE then
    { d with
      state := SbpSt.XMIT_HEADER,
      index := 0,
      frame := { sync := SBP_BYTE_SYNC,
                 type := ty,
                 length := (length + SBP_HEADER_LENGTH + SBP_CHECKSUM_LENGTH) % 65536,
                 dst := dst,
                 src := d.address,
                 payload := msg,
                 checksum := 0 } }
  else d

/-- Handler `ISR(USI_OVF_vect)` of sbp.c (lines 173–320).  `usibr` is the received
byte for the receive states; the second component is the byte the handler
loads into `USIBR` for transmission, when it loads one.  The
`SBP_RECV_PAYLOAD`, `SBP_RECV_CHECKSUM` and `SBP_RECV_IGNORE` cases contain
only comments (and, for the payload case, an incomplete statement) in the
source, so they change nothing. -/
def sbp_usi_ovf (d : SbpData) (usibr : Nat) : SbpData × Option Nat :=
  match d.state with
  | SbpSt.INIT | SbpSt.IDLE => (d, none)
  | SbpSt.XMIT_HEADER =>
      match d.index with
      | 0 => (d, some d.frame.sync)
      | 1 => (d, some d.frame.type)
      | 2 => (d, some (d.frame.length &&& 0xFF))
      | 3 => (d, some ((d.frame.length >>> 8) &&& 0xFF))
      | 4 => (d, some d.frame.dst)
      | 5 => (d, some d.frame.src)
      | _ => ({ d with state := SbpSt.XMIT_PAYLOAD }, none)
  | SbpSt.XMIT_PAYLOAD =>
      if d.index = d.size + SBP_HEADER_LENGTH then
        ({ d with state := SbpSt.XMIT_CHECKSUM }, none)
      else (d, none)
  | SbpSt.XMIT_CHECKSUM =>
      ({ d with state := SbpSt.IDLE }, some d.frame.checksum)
  | SbpSt.RECV_HEADER =>
      let d2 :=
        match d.index with
        | 0 => { d with frame := { d.frame with sync := usibr } }
        | 1 => { d with frame := { d.frame with type := usibr } }
        | 2 => { d with frame := { d.frame with length := usibr } }
        | 3 => { d with frame := { d.frame with length := d.frame.length ||| (usibr <<< 8) } }
        | 4 => { d with frame := { d.frame with dst := usibr } }
        | 5 => { d with frame := { d.frame with src := usibr },
                        state := SbpSt.RECV_PAYLOAD }
        | _ => { d with state := SbpSt.RECV_PAYLOAD }
      ({ d2 with index := (d2.index + 1) % 65536 }, none)
  | SbpSt.RECV_PAYLOAD => (d, none)
  | SbpSt.RECV_CHECKSUM => (d, none)
  | SbpSt.RECV_IGNORE => (d, none)

/-- Run the USI overflow handler over a list of received bytes, discarding
the transmit-side outputs. -/
def sbp_run (d : SbpData) : List Nat → SbpData
  | [] => d
  | b :: rest => sbp_run (sbp_usi_ovf d b).1 rest

/-- A convenient all-zero frame. -/
def frame0 : SbpFrame :=
  { sync := 0, type := 0, length := 0, dst := 0, src := 0, payload := [], checksum := 0 }

end Sbp

/-!  Theorems for the frozen claims.  -/

namespace Tiny485

set_option maxRecDepth 4000

/-- Helper: round-trip and sync-free tail, decided over all byte values. -/
theorem t485_roundtrip_all :
    ∀ b < 256,
      (t485_recv_run t485_start (t485_encode b)).2 = [T485Event.byteReceived b] ∧
        T485_SYNC_BYTE ∉ (t485_encode b).tail := by
  decide

/-- Claim C1: escape codec round-trip.  For every byte value `b`, feeding the
encoded form of `b` through the transceiver's receive decode path, starting
from a state with no escape pending, delivers upward exactly the single
notification carrying `b`; and the encoded output never contains the sync
sentinel as a non-leading byte. -/
theorem t485_escape_roundtrip (b : Nat) (h : b < 256) :
    (t485_recv_run t485_start (t485_encode b)).2 = [T485Event.byteReceived b] ∧
      T485_SYNC_BYTE ∉ (t485_encode b).tail :=
  t485_roundtrip_all b h

/-- Witness for C1 at the sync sentinel itself. -/
theorem t485_escape_roundtrip_witness :
    (0xFF : Nat) < 256 ∧
      ((t485_recv_run t485_start (t485_encode 0xFF)).2 = [T485Event.byteReceived 0xFF] ∧
        T485_SYNC_BYTE ∉ (t485_encode 0xFF).tail) :=
  ⟨by decide, t485_escape_roundtrip 0xFF (by decide)⟩

/-- Claim C2, evaluated at the failing input: after the wire byte 0x55 sets
the escape-pending flag, processing the next wire byte 0x00 delivers the
decoded sync byte upward but leaves the escape-pending flag still set — the
receive path of tiny485.c never clears `T485_FLAG_ESCAPE`. -/
theorem t485_escape_flag_never_cleared :
    ((t485_usi_ovf { t485_start with state := T485St.RECV } T485_ESCAPE_BYTE).1.flags
        &&& T485_FLAG_ESCAPE ≠ 0) ∧
    (let s1 := (t485_usi_ovf { t485_start with state := T485St.RECV } T485_ESCAPE_BYTE).1
     let r := t485_usi_ovf { s1 with state := T485St.RECV } T485_ESCAPED_SYNC
     r.2 = [T485Event.byteReceived T485_SYNC_BYTE] ∧ r.1.flags &&& T485_FLAG_ESCAPE ≠ 0) := by
  decide

/-- Claim C7, evaluated at the failing input: a USI overflow in the receive
state does decode and deliver the byte and does return to `IDLE`, but it
leaves the pin-change (edge) interrupt disabled — the handler calls
`PCINT0_OFF` where the spec requires it to be re-enabled. -/
theorem t485_recv_completion_pcint0_off :
    (let r := t485_usi_ovf { t485_start with state := T485St.RECV, pcint0On := false } 0x12
     r.1.state = T485St.IDLE ∧ r.2 = [T485Event.byteReceived 0x12] ∧
       r.1.pcint0On = false) := by
  decide

/-- Counterexample to claim C8 as stated: at a concrete state in the second
transmit phase with the line driver asserted and the edge interrupt masked,
the USI overflow handler leaves the line-driver enable asserted and the edge
interrupt disabled. -/
theorem t485_xmit2_counterexample :
    (let s := { t485_start with state := T485St.XMIT2, den := true, pcint0On := false,
                                usiOn := true, tim0On := true }
     let r := t485_usi_ovf s 0
     r.1.den = true ∧ r.1.pcint0On = false) := by
  decide

/-- Claim C8 as amended: on a shift-register overflow in the second transmit
phase the handler stops the USI and the byte-clock timer, transitions to
`IDLE` and signals "byte sent" upward, leaving the line-driver enable and the
edge-interrupt mask unchanged; deasserting the line driver and re-enabling
the edge interrupt are done by the separate `end_transmission` function,
which the handler does not invoke. -/
theorem t485_xmit2_step_effects (s : T485State) (usibr : Nat)
    (h : s.state = T485St.XMIT2) :
    t485_usi_ovf s usibr =
      ({ s with usiOn := false, tim0On := false, state := T485St.IDLE },
       [T485Event.byteSent]) ∧
    (end_transmission s).den = false ∧ (end_transmission s).pcint0On = true := by
  refine ⟨?_, rfl, rfl⟩
  simp [t485_usi_ovf, h]

/-- Witness for the amended C8 at a concrete transmitting state. -/
theorem t485_xmit2_step_effects_witness :
    (let s : T485State := { t485_start with state := T485St.XMIT2, den := true,
                                            pcint0On := false, usiOn := true, tim0On := true }
     t485_usi_ovf s 0 =
        ({ s with usiOn := false, tim0On := false, state := T485St.IDLE },
         [T485Event.byteSent]) ∧
      (end_transmission s).den = false ∧ (end_transmission s).pcint0On = true) :=
  t485_xmit2_step_effects _ 0 rfl

/-- Claim C9: in the receive state, a wire byte equal to the sync sentinel
always produces exactly the "sync acquired" notification and never a "byte
received" one, whatever the escape flags are — the sync case of the switch
is checked before the escape-pending flag. -/
theorem t485_sync_wins_over_escape (s : T485State) (h : s.state = T485St.RECV) :
    (t485_usi_ovf s T485_SYNC_BYTE).2 = [T485Event.syncReceived] := by
  simp [t485_usi_ovf, h]

/-- Witness for C9 at a concrete receiving state with the escape flag set. -/
theorem t485_sync_wins_over_escape_witness :
    ({ t485_start with state := T485St.RECV, flags := 1 } : T485State).state = T485St.RECV ∧
      (t485_usi_ovf { t485_start with state := T485St.RECV, flags := 1 }
          T485_SYNC_BYTE).2 = [T485Event.syncReceived] :=
  ⟨rfl, t485_sync_wins_over_escape _ rfl⟩

/-- Helper: the involution property decided over all byte values. -/
theorem bit_reverse_all : ∀ b < 256, bit_reverse (bit_reverse b) = b := by
  decide

/-- Claim C10: `bit_reverse` is an involution on bytes — applying the
host/wire bit-order switch twice restores the original value. -/
theorem bit_reverse_involution (b : Nat) (h : b < 256) :
    bit_reverse (bit_reverse b) = b :=
  bit_reverse_all b h

/-- Witness for C10 at a concrete byte. -/
theorem bit_reverse_involution_witness :
    (0xA5 : Nat) < 256 ∧ bit_reverse (bit_reverse 0xA5) = 0xA5 :=
  ⟨by decide, bit_reverse_involution 0xA5 (by decide)⟩

end Tiny485

namespace Sbp

/-- Claim C3, evaluated at the failing input: with node address 0x01, after
reading a full header whose destination field is 0x02 (neither this node's
address nor any broadcast value), the receive state machine is in
`SBP_RECV_PAYLOAD`, not `SBP_RECV_IGNORE` — the source performs no
destination comparison at all — and the `SBP_RECV_IGNORE` state does not
count anything down: it leaves the state unchanged. -/
theorem sbp_no_destination_filter :
    (let d0 : SbpData := { state := SbpSt.RECV_HEADER, index := 1, size := 0, flags := 0,
                           address := 1, frame := frame0 }
     let d5 := sbp_run d0 [0x10, 0x08, 0x00, 0x02, 0x03]
     d5.frame.dst = 2 ∧ d5.address = 1 ∧ d5.state = SbpSt.RECV_PAYLOAD ∧
       (sbp_usi_ovf { d5 with state := SbpSt.RECV_IGNORE } 0x00).1 =
         { d5 with state := SbpSt.RECV_IGNORE }) := by
  decide

/-- Claim C4, evaluated at the failing input: after `sbp_send` starts a
transmission, two consecutive byte-sent events both supply the sync byte and
leave the send index at 0 — the transmit path of sbp.c never increments
`index`, so it never advances through the frame. -/
theorem sbp_send_index_never_advances :
    (let d0 := sbp_send 2 16 3 [170, 85, 0]
                 { state := SbpSt.IDLE, index := 7, size := 0, flags := 0,
                   address := 1, frame := frame0 }
     let r1 := sbp_usi_ovf d0 0
     let r2 := sbp_usi_ovf r1.1 0
     d0.state = SbpSt.XMIT_HEADER ∧ d0.index = 0 ∧
       r1.2 = some SBP_BYTE_SYNC ∧ r1.1 = d0 ∧ r2.2 = some SBP_BYTE_SYNC) := by
  decide

/-- Claim C5, evaluated at the failing input: in the `SBP_RECV_CHECKSUM`
state, receiving a byte equal to the stored checksum changes nothing at all —
the state stays `SBP_RECV_CHECKSUM`, nothing is signalled and nothing is
loaded; the case body in sbp.c holds only comments. -/
theorem sbp_recv_checksum_inert :
    (let d0 : SbpData := { state := SbpSt.RECV_CHECKSUM, index := 10, size := 0, flags := 0,
                           address := 1,
                           frame := { sync := SBP_BYTE_SYNC, type := 0x10, length := 8,
                                      dst := 1, src := 3, payload := [], checksum := 0x42 } }
     sbp_usi_ovf d0 0x42 = (d0, none)) := by
  decide

/-- Claim C6: `sbp_send` takes effect only from the idle state — there it
populates the in-flight frame with the sync sentinel, the type, the length
computed as payload length + 6 header bytes + 1 checksum byte (in the
16-bit length field), the destination, this node's address as source and the
payload reference, resets the send index to 0 and enters the transmit-header
state; any call made in a non-idle state leaves the entire protocol state
unchanged. -/
theorem sbp_send_spec (dst ty length : Nat) (msg : List Nat) (d : SbpData) :
    (d.state = SbpSt.IDLE →
      sbp_send dst ty length msg d =
        { d with state := SbpSt.XMIT_HEADER, index := 0,
                 frame := { sync := SBP_BYTE_SYNC, type := ty,
                            length := (length + SBP_HEADER_LENGTH + SBP_CHECKSUM_LENGTH) % 65536,
                            dst := dst, src := d.address, payload := msg, checksum := 0 } }) ∧
    (d.state ≠ SbpSt.IDLE → sbp_send dst ty length msg d = d) := by
  constructor <;> intro h <;> simp [sbp_send, h]

/-- Witness for C6: one idle call that populates and one busy call that is a
no-op, at concrete inputs. -/
theorem sbp_send_spec_witness :
    (sbp_send 2 16 3 [170, 85, 0]
        { state := SbpSt.IDLE, index := 7, size := 0, flags := 0, address := 1, frame := frame0 } =
      { state := SbpSt.XMIT_HEADER, index := 0, size := 0, flags := 0, address := 1,
        frame := { sync := SBP_BYTE_SYNC, type := 16, length := (3 + SBP_HEADER_LENGTH + SBP_CHECKSUM_LENGTH) % 65536,
                   dst := 2, src := 1, payload := [170, 85, 0], checksum := 0 } }) ∧
    (sbp_send 2 16 3 []
        { state := SbpSt.RECV_HEADER, index := 4, size := 0, flags := 0, address := 1, frame := frame0 } =
      { state := SbpSt.RECV_HEADER, index := 4, size := 0, flags := 0, address := 1, frame := frame0 }) :=
  ⟨(sbp_send_spec 2 16 3 [170, 85, 0] _).1 rfl,
   (sbp_send_spec 2 16 3 [] _).2 (by decide)⟩

end Sbp
